import Mathlib

/-!
Shallow embedding of the timing and beat-state core of the metronome-gui
repository (src/models.rs and src/metronome/mod.rs).

Modelling conventions:
- Rust `u32`/`u64` counters are modelled as `Nat` (no overflow is reachable
  in the verified properties).
- Rust `f32` volume and accent-strength values are modelled as `ℚ`: the code
  performs no floating-point arithmetic on them, only comparisons against and
  returns of the exactly representable constants 0.0, 0.5, 0.7, 1.0.
- `std::time::Instant` carries no observable structure in the verified
  properties; it is modelled as `Unit` (so `Option Instant` becomes
  `Option Unit`).  `Duration` values produced by `calculate_beat_interval`
  are modelled as rational numbers of seconds.
- The `Arc<Mutex<MetronomeState>>` wrapper of `Metronome` is modelled by
  explicit state passing: a Rust method `&self -> T` mutating the locked
  state becomes a Lean function `MetronomeState → MetronomeState × T`.
-/

namespace MetronomeGui

/-- Time signature enumeration from src/models.rs (`TimeSignature`). -/
inductive TimeSignature where
  | one
  | two
  | three
  | four
  | five
  | six
  | seven
  | eight
deriving DecidableEq

/-- `TimeSignature::beats_per_measure` from src/models.rs. -/
def TimeSignature.beats_per_measure : TimeSignature → Nat
  | .one => 1
  | .two => 2
  | .three => 3
  | .four => 4
  | .five => 5
  | .six => 6
  | .seven => 7
  | .eight => 8

/-- Sound type enumeration from src/models.rs (`SoundType`); the custom
variant's `PathBuf` is modelled as a string. -/
inductive SoundType where
  | builtinClick
  | builtinWood
  | builtinBeep
  | custom (path : String)
deriving DecidableEq

/-- The two core-relevant variants of `MetronomeError` from src/error.rs. -/
inductive MetronomeError where
  | invalidBpm (bpm : Nat)
  | invalidVolume (volume : ℚ)
deriving DecidableEq

/-- `MetronomeConfig` from src/models.rs. -/
structure MetronomeConfig where
  bpm : Nat
  time_signature : TimeSignature
  beat_sound : SoundType
  accent_sound : SoundType
  sound_enabled : Bool
  visual_enabled : Bool
  accent_enabled : Bool
  volume : ℚ
deriving DecidableEq

/-- `MetronomeConfig::new` from src/models.rs. -/
def MetronomeConfig.new (bpm : Nat) : MetronomeConfig :=
  { bpm := bpm
    time_signature := TimeSignature.four
    beat_sound := SoundType.builtinClick
    accent_sound := SoundType.builtinWood
    sound_enabled := true
    visual_enabled := true
    accent_enabled := true
    volume := 7/10 }

/-- `MetronomeConfig::validate` from src/models.rs: checks only the bpm
range; `none` models `Ok(())`. -/
def MetronomeConfig.validate (c : MetronomeConfig) : Option MetronomeError :=
  if c.bpm < 60 ∨ c.bpm > 200 then some (MetronomeError.invalidBpm c.bpm) else none

/-- `MetronomeState` from src/models.rs (the mutable shared state). -/
structure MetronomeState where
  bpm : Nat
  time_signature : TimeSignature
  beat_sound : SoundType
  accent_sound : SoundType
  is_running : Bool
  start_time : Option Unit
  beat_count : Nat
  current_beat_in_measure : Nat
  accent_enabled : Bool
  volume : ℚ
deriving DecidableEq

/-- `MetronomeState::new` from src/models.rs. -/
def MetronomeState.new (config : MetronomeConfig) : MetronomeState :=
  { bpm := config.bpm
    time_signature := config.time_signature
    beat_sound := config.beat_sound
    accent_sound := config.accent_sound
    is_running := false
    start_time := none
    beat_count := 0
    current_beat_in_measure := 1
    accent_enabled := config.accent_enabled
    volume := config.volume }

/-- `MetronomeState::calculate_beat_interval` from src/models.rs, in
rational seconds; every match arm computes `60.0 / bpm`. -/
def MetronomeState.calculate_beat_interval (s : MetronomeState) : ℚ :=
  let base_seconds_per_beat : ℚ := 60 / (s.bpm : ℚ)
  match s.time_signature with
  | .one => base_seconds_per_beat
  | .two => base_seconds_per_beat
  | .three => base_seconds_per_beat
  | .four => base_seconds_per_beat
  | .five => base_seconds_per_beat
  | .six => base_seconds_per_beat
  | .seven => base_seconds_per_beat
  | .eight => base_seconds_per_beat

/-- `MetronomeState::get_interval` from src/models.rs. -/
def MetronomeState.get_interval (s : MetronomeState) : ℚ :=
  s.calculate_beat_interval

/-- `MetronomeState::get_accent_pattern` from src/models.rs. -/
def MetronomeState.get_accent_pattern (s : MetronomeState) : List Bool :=
  match s.time_signature with
  | .one => [false]
  | .two => [true, false]
  | .three => [true, false, false]
  | .four => [true, false, true, false]
  | .five => [true, false, false, false, false]
  | .six => [true, false, false, true, false, false]
  | .seven => [true, false, false, false, false, false]
  | .eight => [true, false, false, false, true, false, false, false]

/-- `MetronomeState::is_accent_beat` from src/models.rs. -/
def MetronomeState.is_accent_beat (s : MetronomeState) : Bool :=
  if !s.accent_enabled then false
  else (s.get_accent_pattern).getD (s.current_beat_in_measure - 1) false

/-- `MetronomeState::get_accent_strength` from src/models.rs. -/
def MetronomeState.get_accent_strength (s : MetronomeState) : ℚ :=
  if !s.accent_enabled then 0
  else
    match s.time_signature with
    | .one =>
        match s.current_beat_in_measure with
        | _ => 0
    | .two =>
        match s.current_beat_in_measure with
        | 1 => 1
        | _ => 0
    | .three =>
        match s.current_beat_in_measure with
        | 1 => 1
        | _ => 0
    | .four =>
        match s.current_beat_in_measure with
        | 1 => 1
        | 3 => 1/2
        | _ => 0
    | .five =>
        match s.current_beat_in_measure with
        | 1 => 1
        | _ => 0
    | .six =>
        match s.current_beat_in_measure with
        | 1 => 1
        | 4 => 1/2
        | _ => 0
    | .seven =>
        match s.current_beat_in_measure with
        | 1 => 1
        | _ => 0
    | .eight =>
        match s.current_beat_in_measure with
        | 1 => 1
        | 5 => 1/2
        | _ => 0

/-- `Beat` from src/models.rs; the `timestamp: Instant` field carries no
observable structure and is omitted. -/
structure Beat where
  sequence_number : Nat
  beat_in_measure : Nat
  is_accent : Bool
  bpm : Nat
  time_signature : TimeSignature
  accent_enabled : Bool
deriving DecidableEq

/-- `Beat::new_with_accent_setting` from src/models.rs, including the
temporary-state construction used to compute `is_accent`. -/
def Beat.new_with_accent_setting (sequence_number : Nat)
    (time_signature : TimeSignature) (bpm : Nat) (accent_enabled : Bool) : Beat :=
  let beats_per_measure := time_signature.beats_per_measure
  let effective_sequence := if sequence_number = 0 then 1 else sequence_number
  let beat_in_measure := (effective_sequence - 1) % beats_per_measure + 1
  let temp_state : MetronomeState :=
    { bpm := bpm
      time_signature := time_signature
      beat_sound := SoundType.builtinClick
      accent_sound := SoundType.builtinClick
      is_running := true
      start_time := some ()
      beat_count := sequence_number
      current_beat_in_measure := beat_in_measure
      accent_enabled := accent_enabled
      volume := 7/10 }
  let is_accent := temp_state.is_accent_beat
  { sequence_number := effective_sequence
    beat_in_measure := beat_in_measure
    is_accent := is_accent
    bpm := bpm
    time_signature := time_signature
    accent_enabled := accent_enabled }

/-- `Beat::new` from src/models.rs: fixes `accent_enabled` to `true`. -/
def Beat.new (sequence_number : Nat) (time_signature : TimeSignature)
    (bpm : Nat) : Beat :=
  Beat.new_with_accent_setting sequence_number time_signature bpm true

/-- `Beat::is_first_beat` from src/models.rs. -/
def Beat.is_first_beat (b : Beat) : Bool :=
  b.beat_in_measure = 1

/-- `Beat::get_accent_strength` from src/models.rs. -/
def Beat.get_accent_strength (b : Beat) : ℚ :=
  if !b.accent_enabled then 0
  else
    match b.time_signature with
    | .one =>
        match b.beat_in_measure with
        | _ => 0
    | .two =>
        match b.beat_in_measure with
        | 1 => 1
        | _ => 0
    | .three =>
        match b.beat_in_measure with
        | 1 => 1
        | _ => 0
    | .four =>
        match b.beat_in_measure with
        | 1 => 1
        | 3 => 1/2
        | _ => 0
    | .five =>
        match b.beat_in_measure with
        | 1 => 1
        | _ => 0
    | .six =>
        match b.beat_in_measure with
        | 1 => 1
        | 4 => 1/2
        | _ => 0
    | .seven =>
        match b.beat_in_measure with
        | 1 => 1
        | _ => 0
    | .eight =>
        match b.beat_in_measure with
        | 1 => 1
        | 5 => 1/2
        | _ => 0

/-- `Beat::is_strong_beat` from src/models.rs. -/
def Beat.is_strong_beat (b : Beat) : Bool :=
  b.get_accent_strength ≥ 1

/-- `Beat::is_medium_beat` from src/models.rs. -/
def Beat.is_medium_beat (b : Beat) : Bool :=
  b.get_accent_strength > 0 ∧ b.get_accent_strength < 1

/-- `Beat::is_weak_beat` from src/models.rs. -/
def Beat.is_weak_beat (b : Beat) : Bool :=
  b.get_accent_strength = 0

/-- `MetronomeState::increment_beat` from src/models.rs. -/
def MetronomeState.increment_beat (s : MetronomeState) : MetronomeState × Beat :=
  let beat_count := s.beat_count + 1
  let beats_per_measure := s.time_signature.beats_per_measure
  let current_beat_in_measure := (beat_count - 1) % beats_per_measure + 1
  let s2 := { s with beat_count := beat_count
                     current_beat_in_measure := current_beat_in_measure }
  (s2, Beat.new beat_count s.time_signature s.bpm)

/-- `MetronomeState::start` from src/models.rs. -/
def MetronomeState.start (s : MetronomeState) : MetronomeState :=
  if !s.is_running then
    { s with start_time := some ()
             beat_count := 0
             current_beat_in_measure := 1
             is_running := true }
  else s

/-- `MetronomeState::stop` from src/models.rs. -/
def MetronomeState.stop (s : MetronomeState) : MetronomeState :=
  { s with is_running := false, start_time := none }

/-- `MetronomeState::update_bpm` from src/models.rs. -/
def MetronomeState.update_bpm (s : MetronomeState) (bpm : Nat) :
    MetronomeState × Option MetronomeError :=
  if bpm < 60 ∨ bpm > 200 then (s, some (MetronomeError.invalidBpm bpm))
  else ({ s with bpm := bpm }, none)

/-- `MetronomeState::update_time_signature` from src/models.rs. -/
def MetronomeState.update_time_signature (s : MetronomeState)
    (time_signature : TimeSignature) : MetronomeState :=
  let s2 := { s with time_signature := time_signature }
  if s2.is_running then { s2 with current_beat_in_measure := 1 } else s2

/-- `MetronomeState::update_sounds` from src/models.rs. -/
def MetronomeState.update_sounds (s : MetronomeState)
    (beat_sound accent_sound : SoundType) : MetronomeState :=
  { s with beat_sound := beat_sound, accent_sound := accent_sound }

/-- `MetronomeState::update_accent_enabled` from src/models.rs. -/
def MetronomeState.update_accent_enabled (s : MetronomeState)
    (accent_enabled : Bool) : MetronomeState :=
  { s with accent_enabled := accent_enabled }

/-- `MetronomeState::update_volume` from src/models.rs: rejects values
outside `[0.0, 1.0]` leaving the state unchanged. -/
def MetronomeState.update_volume (s : MetronomeState) (volume : ℚ) :
    MetronomeState × Option MetronomeError :=
  if volume < 0 ∨ volume > 1 then (s, some (MetronomeError.invalidVolume volume))
  else ({ s with volume := volume }, none)

namespace Metronome

/-- `Metronome::from_config` from src/metronome/mod.rs: validates, then
builds the state. -/
def from_config (config : MetronomeConfig) : Except MetronomeError MetronomeState :=
  match config.validate with
  | some e => Except.error e
  | none => Except.ok (MetronomeState.new config)

/-- `Metronome::with_bpm` from src/metronome/mod.rs. -/
def with_bpm (bpm : Nat) : Except MetronomeError MetronomeState :=
  let config := MetronomeConfig.new bpm
  match config.validate with
  | some e => Except.error e
  | none => from_config config

/-- `Metronome::set_volume` from src/metronome/mod.rs: delegates to
`MetronomeState::update_volume` under the lock. -/
def set_volume (s : MetronomeState) (volume : ℚ) :
    MetronomeState × Option MetronomeError :=
  s.update_volume volume

/-- `Metronome::get_beat_sound` from src/metronome/mod.rs. -/
def get_beat_sound (s : MetronomeState) : SoundType :=
  if s.current_beat_in_measure = 1 then s.accent_sound else s.beat_sound

/-- `Metronome::get_current_sound_type` from src/metronome/mod.rs. -/
def get_current_sound_type (s : MetronomeState) : SoundType :=
  if s.current_beat_in_measure = 1 then s.accent_sound else s.beat_sound

/-- Tail of `Metronome::update_settings` from src/metronome/mod.rs after the
bpm field: applies time signature, sounds and accent flag in order, then the
fallible volume update last. -/
def update_settings_rest (s : MetronomeState)
    (ts : Option TimeSignature) (beat_sound accent_sound : Option SoundType)
    (accent_enabled : Option Bool) (volume : Option ℚ) :
    MetronomeState × Option MetronomeError :=
  let s := match ts with
           | some t => s.update_time_signature t
           | none => s
  let s := match beat_sound with
           | some b => { s with beat_sound := b }
           | none => s
  let s := match accent_sound with
           | some a => { s with accent_sound := a }
           | none => s
  let s := match accent_enabled with
           | some e => s.update_accent_enabled e
           | none => s
  match volume with
  | some v => s.update_volume v
  | none => (s, none)

/-- `Metronome::update_settings` from src/metronome/mod.rs: the bpm range
check runs first and returns before any mutation; the remaining fields are
applied in order with the volume check last. -/
def update_settings (s : MetronomeState) (bpm : Option Nat)
    (ts : Option TimeSignature) (beat_sound accent_sound : Option SoundType)
    (accent_enabled : Option Bool) (volume : Option ℚ) :
    MetronomeState × Option MetronomeError :=
  match bpm with
  | some b =>
      if b < 60 ∨ b > 200 then (s, some (MetronomeError.invalidBpm b))
      else update_settings_rest { s with bpm := b } ts beat_sound accent_sound
             accent_enabled volume
  | none => update_settings_rest s ts beat_sound accent_sound accent_enabled volume

end Metronome

/-- Iterating `MetronomeState::increment_beat` n times, collecting the
returned beats in order (models calling `advance()` n times). -/
def MetronomeState.advanceN (s : MetronomeState) : Nat → MetronomeState × List Beat
  | 0 => (s, [])
  | n + 1 =>
      let p := s.advanceN n
      let q := p.1.increment_beat
      (q.1, p.2 ++ [q.2])

/-- Accent strength table of spec section 4.1, written from the spec's words
(not the code) for comparison: strength 1.0 at position 1 except the 1-beat
signature whose sole position is 0.0; strength 0.5 at position 3 of the
4-beat, position 4 of the 6-beat and position 5 of the 8-beat signature;
0.0 everywhere else. -/
def specAccentStrength (ts : TimeSignature) (position : Nat) : ℚ :=
  if position = 1 then (if ts = TimeSignature.one then 0 else 1)
  else if (ts = TimeSignature.four ∧ position = 3) ∨
          (ts = TimeSignature.six ∧ position = 4) ∨
          (ts = TimeSignature.eight ∧ position = 5) then 1/2
  else 0

/-!
Helper lemmas shared by several claim theorems.
-/

/-- A beat's accent strength, with accents enabled, matches the spec table
at its time signature and measure position. -/
theorem beat_strength_eq_spec (b : Beat) (hacc : b.accent_enabled = true) :
    b.get_accent_strength = specAccentStrength b.time_signature b.beat_in_measure := by
  obtain ⟨sn, p, ia, bpm, ts, ae⟩ := b
  simp only at hacc
  subst hacc
  cases ts <;>
    rcases p with _ | _ | _ | _ | _ | _ | _ | _ | p <;>
      simp [Beat.get_accent_strength, specAccentStrength]

/-- The clock state's accent strength, with accents enabled, matches the
spec table at its time signature and current measure position. -/
theorem state_strength_eq_spec (s : MetronomeState) (hacc : s.accent_enabled = true) :
    s.get_accent_strength = specAccentStrength s.time_signature s.current_beat_in_measure := by
  obtain ⟨bpm, ts, bs, asnd, ir, st, bc, p, ae, vol⟩ := s
  simp only at hacc
  subst hacc
  cases ts <;>
    rcases p with _ | _ | _ | _ | _ | _ | _ | _ | p <;>
      simp [MetronomeState.get_accent_strength, specAccentStrength]

/-- With accents enabled, a downbeat of any signature other than the 1-beat
one has strength 1. -/
theorem beat_downbeat_strength (b : Beat) (hacc : b.accent_enabled = true)
    (hts : b.time_signature ≠ TimeSignature.one) (hpos : b.beat_in_measure = 1) :
    b.get_accent_strength = 1 := by
  rw [beat_strength_eq_spec b hacc, specAccentStrength, hpos]
  simp [hts]

/-- A beat built from a nonzero raw sequence number keeps it unchanged. -/
theorem beat_sequence_kept (ts : TimeSignature) (bpm : Nat) (ae : Bool)
    (n : Nat) (hn : 1 ≤ n) :
    (Beat.new_with_accent_setting n ts bpm ae).sequence_number = n := by
  show (if n = 0 then 1 else n) = n
  simp [Nat.one_le_iff_ne_zero.mp hn]

/-- Fields of the state produced by `increment_beat`. -/
theorem increment_beat_state_fields (s : MetronomeState) :
    ((s.increment_beat).1.beat_count = s.beat_count + 1) ∧
    ((s.increment_beat).1.time_signature = s.time_signature) ∧
    ((s.increment_beat).1.bpm = s.bpm) ∧
    ((s.increment_beat).2 = Beat.new (s.beat_count + 1) s.time_signature s.bpm) :=
  ⟨rfl, rfl, rfl, rfl⟩

/-- The list of beats produced by n advances is the map of `Beat.new` over
consecutive sequence numbers, and the counter advances by n. -/
theorem advanceN_closed_form (s : MetronomeState) (n : Nat) :
    ((s.advanceN n).1.beat_count = s.beat_count + n) ∧
    ((s.advanceN n).1.time_signature = s.time_signature) ∧
    ((s.advanceN n).1.bpm = s.bpm) ∧
    ((s.advanceN n).2 =
      (List.range n).map (fun i => Beat.new (s.beat_count + i + 1) s.time_signature s.bpm)) := by
  induction n with
  | zero => exact ⟨rfl, rfl, rfl, rfl⟩
  | succ n ih =>
      obtain ⟨hc, ht, hb, hl⟩ := ih
      refine ⟨?_, ?_, ?_, ?_⟩
      · show ((s.advanceN n).1.increment_beat).1.beat_count = s.beat_count + (n + 1)
        rw [(increment_beat_state_fields _).1, hc]
        omega
      · show ((s.advanceN n).1.increment_beat).1.time_signature = s.time_signature
        rw [(increment_beat_state_fields _).2.1, ht]
      · show ((s.advanceN n).1.increment_beat).1.bpm = s.bpm
        rw [(increment_beat_state_fields _).2.2.1, hb]
      · show (s.advanceN n).2 ++ [((s.advanceN n).1.increment_beat).2] = _
        rw [(increment_beat_state_fields _).2.2.2, hc, ht, hb, hl, List.range_succ,
          List.map_append]
        rfl

/-!
Claim theorems.
-/

/-- C2 counterexample: the claim quantifies over every time signature in the
closed set, but for the 1-beat signature the accent strength at position 1
is 0, not 1 — both on a state with accents enabled at position 1 and on a
Beat at position 1. -/
theorem downbeat_one_counterexample :
    (let s : MetronomeState :=
      { MetronomeState.new (MetronomeConfig.new 120) with time_signature := TimeSignature.one }
     s.accent_enabled = true ∧ s.current_beat_in_measure = 1 ∧ s.get_accent_strength = 0) ∧
    (Beat.new 1 TimeSignature.one 120).accent_enabled = true ∧
    (Beat.new 1 TimeSignature.one 120).beat_in_measure = 1 ∧
    (Beat.new 1 TimeSignature.one 120).get_accent_strength = 0 :=
  ⟨⟨rfl, rfl, rfl⟩, rfl, rfl, rfl⟩

/-- C2 (amended): for every time signature other than the 1-beat one, with
accents enabled, the accent strength at position 1 (the downbeat) is 1 —
both for `get_accent_strength` on a state with current position 1 and for a
Beat with `beat_in_measure = 1`. -/
theorem downbeat_strength_one_except_unit (s : MetronomeState)
    (hts : s.time_signature ≠ TimeSignature.one)
    (hacc : s.accent_enabled = true) (hpos : s.current_beat_in_measure = 1) :
    s.get_accent_strength = 1 ∧
    ∀ b : Beat, b.time_signature ≠ TimeSignature.one → b.accent_enabled = true →
      b.beat_in_measure = 1 → b.get_accent_strength = 1 := by
  constructor
  · rw [state_strength_eq_spec s hacc, specAccentStrength, hpos]
    simp [hts]
  · intro b h1 h2 h3
    exact beat_downbeat_strength b h2 h1 h3

/-- C2 witness. -/
theorem downbeat_strength_one_except_unit_witness :
    (MetronomeState.new (MetronomeConfig.new 120)).time_signature ≠ TimeSignature.one ∧
    (MetronomeState.new (MetronomeConfig.new 120)).get_accent_strength = 1 :=
  ⟨by decide,
   (downbeat_strength_one_except_unit (MetronomeState.new (MetronomeConfig.new 120))
      (by decide) rfl rfl).1⟩

/-- C3: `increment_beat` builds its Beat through `Beat::new`, which fixes
`accent_enabled` to true; so even from a state with accents disabled the
returned Beat carries `accent_enabled = true` and reports the
accents-enabled strength — e.g. 1 on the downbeat of the 4-beat
signature. -/
theorem increment_beat_ignores_accent_flag (s : MetronomeState)
    (h : s.accent_enabled = false) :
    (s.increment_beat).2.accent_enabled = true ∧
    (s.increment_beat).2.get_accent_strength =
      specAccentStrength s.time_signature (s.increment_beat).2.beat_in_measure ∧
    (s.time_signature = TimeSignature.four → (s.increment_beat).2.beat_in_measure = 1 →
      (s.increment_beat).2.get_accent_strength = 1) := by
  have hb : (s.increment_beat).2.accent_enabled = true := rfl
  have hts : (s.increment_beat).2.time_signature = s.time_signature := rfl
  refine ⟨hb, ?_, ?_⟩
  · rw [beat_strength_eq_spec _ hb, hts]
  · intro h4 hpos
    refine beat_downbeat_strength _ hb ?_ hpos
    rw [hts, h4]
    intro hcontra
    exact TimeSignature.noConfusion hcontra

/-- C3 witness. -/
theorem increment_beat_ignores_accent_flag_witness :
    (let s : MetronomeState :=
      { MetronomeState.new (MetronomeConfig.new 120) with accent_enabled := false }
     s.accent_enabled = false ∧
     (s.increment_beat).2.accent_enabled = true ∧
     (s.increment_beat).2.get_accent_strength = 1) := by
  refine ⟨rfl, ?_, ?_⟩
  · exact (increment_beat_ignores_accent_flag _ rfl).1
  · exact (increment_beat_ignores_accent_flag _ rfl).2.2 rfl rfl

/-- C5: with accents enabled, for every time signature and every position in
the measure, `get_accent_strength` — on the state and on a Beat — returns
exactly the value of the accent table of spec section 4.1; in particular the
4-beat signature yields 1, 0, 1/2, 0 at positions 1, 2, 3, 4. -/
theorem accent_strength_matches_spec_table (s : MetronomeState)
    (hacc : s.accent_enabled = true)
    (h1 : 1 ≤ s.current_beat_in_measure)
    (h2 : s.current_beat_in_measure ≤ s.time_signature.beats_per_measure) :
    s.get_accent_strength = specAccentStrength s.time_signature s.current_beat_in_measure ∧
    ∀ b : Beat, b.accent_enabled = true →
      b.get_accent_strength = specAccentStrength b.time_signature b.beat_in_measure := by
  exact ⟨state_strength_eq_spec s hacc, fun b hb => beat_strength_eq_spec b hb⟩

/-- C5 witness: the 4-beat signature at positions 1, 2, 3, 4 yields
strengths 1, 0, 1/2, 0. -/
theorem accent_strength_matches_spec_table_witness :
    (let s := MetronomeState.new (MetronomeConfig.new 120)
     s.accent_enabled = true ∧ 1 ≤ s.current_beat_in_measure ∧
     s.current_beat_in_measure ≤ s.time_signature.beats_per_measure ∧
     s.get_accent_strength = specAccentStrength s.time_signature s.current_beat_in_measure) ∧
    (Beat.new 1 TimeSignature.four 120).get_accent_strength = 1 ∧
    (Beat.new 2 TimeSignature.four 120).get_accent_strength = 0 ∧
    (Beat.new 3 TimeSignature.four 120).get_accent_strength = 1/2 ∧
    (Beat.new 4 TimeSignature.four 120).get_accent_strength = 0 := by
  refine ⟨⟨rfl, ?_, ?_, ?_⟩, rfl, rfl, rfl, rfl⟩
  · decide
  · decide
  · exact (accent_strength_matches_spec_table (MetronomeState.new (MetronomeConfig.new 120))
      rfl (by decide) (by decide)).1

/-- C6: for every bpm in [60,200] the beat interval is exactly 60 seconds
divided by bpm, and the interval is identical for all time signatures at the
same bpm. -/
theorem interval_is_sixty_over_bpm (s : MetronomeState)
    (h1 : 60 ≤ s.bpm) (h2 : s.bpm ≤ 200) :
    s.calculate_beat_interval = 60 / (s.bpm : ℚ) ∧
    ∀ t : TimeSignature,
      ({ s with time_signature := t } : MetronomeState).calculate_beat_interval =
        s.calculate_beat_interval := by
  constructor
  · unfold MetronomeState.calculate_beat_interval
    cases s.time_signature <;> rfl
  · intro t
    unfold MetronomeState.calculate_beat_interval
    cases t <;> cases s.time_signature <;> rfl

/-- C6 witness: 60 bpm gives 1 s, 120 bpm gives 1/2 s, 200 bpm gives
3/10 s. -/
theorem interval_is_sixty_over_bpm_witness :
    (60 ≤ 120 ∧ 120 ≤ 200 ∧
      (MetronomeState.new (MetronomeConfig.new 120)).calculate_beat_interval = 60 / (120 : ℚ)) ∧
    (MetronomeState.new (MetronomeConfig.new 60)).calculate_beat_interval = 1 ∧
    (MetronomeState.new (MetronomeConfig.new 120)).calculate_beat_interval = 1/2 ∧
    (MetronomeState.new (MetronomeConfig.new 200)).calculate_beat_interval = 3/10 := by
  refine ⟨⟨by decide, by decide, ?_⟩, ?_, ?_, ?_⟩
  · exact (interval_is_sixty_over_bpm (MetronomeState.new (MetronomeConfig.new 120))
      (by decide) (by decide)).1
  · show (60 : ℚ) / 60 = 1
    norm_num
  · show (60 : ℚ) / 120 = 1/2
    norm_num
  · show (60 : ℚ) / 200 = 3/10
    norm_num

/-- C8: `update_time_signature` always installs the new signature, resets
the measure position to 1 exactly when the clock is running, leaves the
position unchanged when stopped, and never changes the running flag. -/
theorem set_time_signature_frame (s : MetronomeState) (ts : TimeSignature) :
    (s.update_time_signature ts).time_signature = ts ∧
    (s.is_running = true → (s.update_time_signature ts).current_beat_in_measure = 1) ∧
    (s.is_running = false →
      (s.update_time_signature ts).current_beat_in_measure = s.current_beat_in_measure) ∧
    (s.update_time_signature ts).is_running = s.is_running := by
  unfold MetronomeState.update_time_signature
  cases h : s.is_running <;> simp [h]

/-- C8 witness: applied both to a stopped and to a running state. -/
theorem set_time_signature_frame_witness :
    (let s := MetronomeState.new (MetronomeConfig.new 120)
     s.is_running = false ∧
     (s.update_time_signature TimeSignature.three).time_signature = TimeSignature.three ∧
     (s.update_time_signature TimeSignature.three).current_beat_in_measure =
       s.current_beat_in_measure ∧
     (s.update_time_signature TimeSignature.three).is_running = false) ∧
    (let r := { MetronomeState.new (MetronomeConfig.new 120) with
                is_running := true, current_beat_in_measure := 3 }
     r.is_running = true ∧
     (r.update_time_signature TimeSignature.three).current_beat_in_measure = 1 ∧
     (r.update_time_signature TimeSignature.three).is_running = true) := by
  constructor
  · refine ⟨rfl, (set_time_signature_frame _ _).1, ?_, ?_⟩
    · exact (set_time_signature_frame _ _).2.2.1 rfl
    · exact (set_time_signature_frame _ _).2.2.2
  · refine ⟨rfl, ?_, ?_⟩
    · exact (set_time_signature_frame _ _).2.1 rfl
    · exact (set_time_signature_frame _ _).2.2.2

/-- C9: a Beat constructed with raw sequence number 0 reports sequence
number 1 and measure position 1, and any raw sequence number n at least 1 is
reported unchanged — for `new_with_accent_setting` and hence for `new`. -/
theorem beat_sequence_number_normalization (ts : TimeSignature) (bpm : Nat) (ae : Bool) :
    (Beat.new_with_accent_setting 0 ts bpm ae).sequence_number = 1 ∧
    (Beat.new_with_accent_setting 0 ts bpm ae).beat_in_measure = 1 ∧
    (Beat.new 0 ts bpm).sequence_number = 1 ∧
    (Beat.new 0 ts bpm).beat_in_measure = 1 ∧
    (∀ n : Nat, 1 ≤ n → (Beat.new_with_accent_setting n ts bpm ae).sequence_number = n) ∧
    (∀ n : Nat, 1 ≤ n → (Beat.new n ts bpm).sequence_number = n) := by
  refine ⟨rfl, ?_, rfl, ?_, fun n hn => beat_sequence_kept ts bpm ae n hn, ?_⟩
  · show (1 - 1) % ts.beats_per_measure + 1 = 1
    simp
  · show (1 - 1) % ts.beats_per_measure + 1 = 1
    simp
  · intro n hn
    exact beat_sequence_kept ts bpm true n hn

/-- C9 witness. -/
theorem beat_sequence_number_normalization_witness :
    (Beat.new_with_accent_setting 0 TimeSignature.four 120 true).sequence_number = 1 ∧
    (Beat.new 0 TimeSignature.four 120).beat_in_measure = 1 ∧
    (Beat.new 7 TimeSignature.four 120).sequence_number = 7 := by
  refine ⟨(beat_sequence_number_normalization TimeSignature.four 120 true).1, ?_, ?_⟩
  · exact (beat_sequence_number_normalization TimeSignature.four 120 true).2.2.2.1
  · exact (beat_sequence_number_normalization TimeSignature.four 120 true).2.2.2.2.2 7
      (by decide)

/-- C10: `get_beat_sound` and `get_current_sound_type` select the accent
sound exactly at measure position 1 and the regular beat sound elsewhere,
independently of `accent_enabled`; in particular the 1-beat signature's
position 1 selects the accent sound even though its accent strength is 0. -/
theorem sound_selection_discriminates_on_position (s : MetronomeState) (flag : Bool) :
    Metronome.get_beat_sound s =
      (if s.current_beat_in_measure = 1 then s.accent_sound else s.beat_sound) ∧
    Metronome.get_current_sound_type s = Metronome.get_beat_sound s ∧
    Metronome.get_beat_sound { s with accent_enabled := flag } = Metronome.get_beat_sound s ∧
    (s.time_signature = TimeSignature.one → s.current_beat_in_measure = 1 →
      Metronome.get_beat_sound s = s.accent_sound ∧ s.get_accent_strength = 0) := by
  refine ⟨rfl, rfl, rfl, ?_⟩
  intro hone hpos
  constructor
  · unfold Metronome.get_beat_sound
    rw [if_pos hpos]
  · unfold MetronomeState.get_accent_strength
    rw [hone]
    cases s.accent_enabled <;> simp

/-- C10 witness: on a fresh 1-beat-signature state at position 1, the accent
sound is selected although the strength is 0. -/
theorem sound_selection_discriminates_on_position_witness :
    (let s : MetronomeState :=
      { MetronomeState.new (MetronomeConfig.new 120) with time_signature := TimeSignature.one }
     s.time_signature = TimeSignature.one ∧ s.current_beat_in_measure = 1 ∧
     Metronome.get_beat_sound s = s.accent_sound ∧ s.get_accent_strength = 0) := by
  refine ⟨rfl, rfl, ?_, ?_⟩
  · exact ((sound_selection_discriminates_on_position _ true).2.2.2 rfl rfl).1
  · exact ((sound_selection_discriminates_on_position _ true).2.2.2 rfl rfl).2

/-- C1 counterexample: `update_settings` supplying a valid bpm, a valid time
signature and an invalid volume returns an error, yet the bpm and the time
signature of the state have already been changed — the call is not
all-or-nothing. -/
theorem update_settings_not_atomic_counterexample :
    (let s0 := MetronomeState.new (MetronomeConfig.new 120)
     let r := Metronome.update_settings s0 (some 140) (some TimeSignature.three)
       none none none (some 2)
     s0.bpm = 120 ∧ s0.time_signature = TimeSignature.four ∧
     r.2 = some (MetronomeError.invalidVolume 2) ∧
     r.1.bpm = 140 ∧ r.1.time_signature = TimeSignature.three) :=
  ⟨rfl, rfl, rfl, rfl, rfl⟩

/-- C1 (amended): `update_settings` validates bpm before any mutation, so an
invalid bpm fails with no field changed; but the volume is validated last,
after the other supplied fields have been applied, so an invalid volume
fails leaving the volume unchanged while an accompanying time signature (and
the other earlier fields) are already applied. -/
theorem update_settings_error_semantics (s : MetronomeState) :
    (∀ (b : Nat) (ts : Option TimeSignature) (bs asnd : Option SoundType)
       (ae : Option Bool) (v : Option ℚ), b < 60 ∨ b > 200 →
       Metronome.update_settings s (some b) ts bs asnd ae v =
         (s, some (MetronomeError.invalidBpm b))) ∧
    (∀ (ts : TimeSignature) (v : ℚ), v < 0 ∨ v > 1 →
       (Metronome.update_settings s none (some ts) none none none (some v)).2 =
         some (MetronomeError.invalidVolume v) ∧
       (Metronome.update_settings s none (some ts) none none none (some v)).1.volume =
         s.volume ∧
       (Metronome.update_settings s none (some ts) none none none (some v)).1.time_signature =
         ts) := by
  constructor
  · intro b ts bs asnd ae v hb
    show (if b < 60 ∨ b > 200 then _ else _) = _
    rw [if_pos hb]
  · intro ts v hv
    show ((s.update_time_signature ts).update_volume v).2 = _ ∧
      ((s.update_time_signature ts).update_volume v).1.volume = s.volume ∧
      ((s.update_time_signature ts).update_volume v).1.time_signature = ts
    unfold MetronomeState.update_volume
    rw [if_pos hv]
    refine ⟨rfl, ?_, ?_⟩
    · unfold MetronomeState.update_time_signature
      cases h : s.is_running <;> simp [h]
    · unfold MetronomeState.update_time_signature
      cases h : s.is_running <;> simp [h]

/-- C1 witness. -/
theorem update_settings_error_semantics_witness :
    (let s := MetronomeState.new (MetronomeConfig.new 120)
     ((500 : Nat) < 60 ∨ (500 : Nat) > 200) ∧
     Metronome.update_settings s (some 500) (some TimeSignature.three) none none none none =
       (s, some (MetronomeError.invalidBpm 500)) ∧
     ((2 : ℚ) < 0 ∨ (2 : ℚ) > 1) ∧
     (Metronome.update_settings s none (some TimeSignature.three) none none none
        (some 2)).1.volume = s.volume) := by
  refine ⟨by decide, ?_, by decide, ?_⟩
  · exact (update_settings_error_semantics _).1 500 (some TimeSignature.three)
      none none none none (by decide)
  · exact ((update_settings_error_semantics _).2 TimeSignature.three 2 (by decide)).2.1

/-- C4 counterexample: a configuration carrying volume 2 (outside [0,1]) but
a valid bpm passes `validate` and `from_config` succeeds, carrying the
invalid volume into the constructed state — construction does not fail with
InvalidVolume. -/
theorem from_config_accepts_invalid_volume_counterexample :
    (let c := { MetronomeConfig.new 120 with volume := (2 : ℚ) }
     ((2 : ℚ) > 1) ∧ c.validate = none ∧
     Metronome.from_config c = Except.ok (MetronomeState.new c) ∧
     (MetronomeState.new c).volume = 2) :=
  ⟨by decide, rfl, rfl, rfl⟩

/-- C4 (amended): `update_volume` and `set_volume` reject every volume
outside [0,1] with InvalidVolume, never clamping, leaving the prior volume
(and the whole state) unchanged; but constructing the clock from a
configuration validates only the bpm — a configuration carrying an
out-of-range volume is accepted and its volume is installed unchecked. -/
theorem volume_rejected_on_update_only (s : MetronomeState) (v : ℚ)
    (hv : v < 0 ∨ v > 1) :
    s.update_volume v = (s, some (MetronomeError.invalidVolume v)) ∧
    Metronome.set_volume s v = (s, some (MetronomeError.invalidVolume v)) ∧
    ∀ c : MetronomeConfig, 60 ≤ c.bpm → c.bpm ≤ 200 →
      Metronome.from_config { c with volume := v } =
        Except.ok (MetronomeState.new { c with volume := v }) := by
  have hupd : s.update_volume v = (s, some (MetronomeError.invalidVolume v)) := by
    unfold MetronomeState.update_volume
    rw [if_pos hv]
  refine ⟨hupd, hupd, ?_⟩
  intro c h1 h2
  have hval : ({ c with volume := v } : MetronomeConfig).validate = none := by
    unfold MetronomeConfig.validate
    rw [if_neg]
    simp only [not_or, not_lt, gt_iff_lt]
    exact ⟨h1, h2⟩
  unfold Metronome.from_config
  rw [hval]

/-- C4 witness. -/
theorem volume_rejected_on_update_only_witness :
    (let s := MetronomeState.new (MetronomeConfig.new 120)
     ((3 : ℚ)/2 < 0 ∨ (3 : ℚ)/2 > 1) ∧
     s.update_volume ((3 : ℚ)/2) = (s, some (MetronomeError.invalidVolume ((3 : ℚ)/2))) ∧
     60 ≤ (MetronomeConfig.new 120).bpm ∧ (MetronomeConfig.new 120).bpm ≤ 200 ∧
     Metronome.from_config { MetronomeConfig.new 120 with volume := (3 : ℚ)/2 } =
       Except.ok (MetronomeState.new { MetronomeConfig.new 120 with volume := (3 : ℚ)/2 })) := by
  have hv : (3 : ℚ)/2 < 0 ∨ (3 : ℚ)/2 > 1 := by
    right
    norm_num
  refine ⟨hv, ?_, by decide, by decide, ?_⟩
  · exact (volume_rejected_on_update_only _ _ hv).1
  · exact (volume_rejected_on_update_only (MetronomeState.new (MetronomeConfig.new 120)) _
      hv).2.2 (MetronomeConfig.new 120) (by decide) (by decide)

/-- C7: n advances from a fresh start yield beats whose sequence numbers are
1..n in order, each positioned at ((sequence − 1) mod beats_per_measure) + 1,
with the state's signature, carrying accent_enabled = true. -/
theorem advance_yields_cycling_positions (s : MetronomeState)
    (hstop : s.is_running = false) (n i : Nat) (hi : i < n) :
    ((s.start.advanceN n).2.length = n) ∧
    (s.start.advanceN n).2[i]? =
      some (Beat.new (i + 1) s.time_signature s.bpm) ∧
    ∀ b : Beat, (s.start.advanceN n).2[i]? = some b →
      b.sequence_number = i + 1 ∧
      b.beat_in_measure = i % s.time_signature.beats_per_measure + 1 ∧
      b.time_signature = s.time_signature ∧
      b.accent_enabled = true := by
  have hs : s.start = { s with start_time := some (), beat_count := 0, current_beat_in_measure := 1, is_running := true } := by
    unfold MetronomeState.start
    rw [hstop]
    rfl
  have hcf := (advanceN_closed_form s.start n).2.2.2
  rw [hs] at hcf
  have hlist : (s.start.advanceN n).2 =
      (List.range n).map (fun j => Beat.new (j + 1) s.time_signature s.bpm) := by
    rw [hs]
    rw [hcf]
    simp
  have hlen : (s.start.advanceN n).2.length = n := by
    rw [hlist]
    simp
  have hget : (s.start.advanceN n).2[i]? =
      some (Beat.new (i + 1) s.time_signature s.bpm) := by
    rw [hlist, List.getElem?_map, List.getElem?_range hi]
    rfl
  refine ⟨hlen, hget, ?_⟩
  intro b hb
  rw [hget] at hb
  obtain rfl : Beat.new (i + 1) s.time_signature s.bpm = b := Option.some.inj hb
  refine ⟨?_, ?_, rfl, rfl⟩
  · exact beat_sequence_kept s.time_signature s.bpm true (i + 1)
      (Nat.succ_le_succ (Nat.zero_le i))
  · show ((if i + 1 = 0 then 1 else i + 1) - 1) % s.time_signature.beats_per_measure + 1 =
      i % s.time_signature.beats_per_measure + 1
    simp

/-- C7 witness: at 120 bpm with the 4-beat signature, 5 advances from a
fresh start yield positions [1,2,3,4,1], sequence numbers 1..5 and accent
strengths [1, 0, 1/2, 0, 1]. -/
theorem advance_yields_cycling_positions_witness :
    (let s := MetronomeState.new (MetronomeConfig.new 120)
     s.is_running = false ∧ (2 : Nat) < 5 ∧
     (s.start.advanceN 5).2[2]? = some (Beat.new 3 s.time_signature s.bpm) ∧
     (s.start.advanceN 5).2.map Beat.sequence_number = [1, 2, 3, 4, 5] ∧
     (s.start.advanceN 5).2.map Beat.beat_in_measure = [1, 2, 3, 4, 1] ∧
     (s.start.advanceN 5).2.map Beat.get_accent_strength = [1, 0, 1/2, 0, 1]) := by
  refine ⟨rfl, by decide, ?_, by decide, by decide, ?_⟩
  · exact (advance_yields_cycling_positions (MetronomeState.new (MetronomeConfig.new 120))
      rfl 5 2 (by decide)).2.1
  · rfl

end MetronomeGui
